import Mathlib

/-!
Shallow embedding of the SWIPEYY OSINT dashboard core (src/types.ts and the
App component): the recon request state machine, the synthetic profile
generator, and the metrics projector.  JavaScript timers are modelled as an
explicit list of pending callbacks; `Math.random()` draws and the clock are
passed in explicitly as an environment.
-/

/- ===== Data model (src/types.ts) ===== -/

inductive Platform
  | SNAPCHAT
  | INSTAGRAM
  | FACEBOOK
deriving DecidableEq

inductive AccountStatus
  | PUBLIC
  | PRIVATE
  | SUSPENDED
deriving DecidableEq

inductive EncryptionLevel
  | AES256
  | NONE
deriving DecidableEq

inductive MeoContainerState
  | LOCKED
  | EXPOSED
deriving DecidableEq

structure ProfileMetadata where
  realName : Option String
  /-- epoch-millisecond value of the accountCreated ISO timestamp string -/
  accountCreated : Int
  /-- epoch-millisecond value of the lastActive ISO timestamp string -/
  lastActive : Int
  score : Option Nat
  avatarUrl : Option String
deriving DecidableEq

structure SecurityInfo where
  encryptionLevel : EncryptionLevel
  meoContainer : MeoContainerState
  twoFactorAuth : Bool
deriving DecidableEq

structure TargetProfile where
  id : String
  username : String
  platform : Platform
  status : AccountStatus
  metadata : ProfileMetadata
  security : SecurityInfo
deriving DecidableEq

inductive ReconStatus
  | IDLE
  | CONNECTING
  | FETCHING_HEADERS
  | PARSING_JSON
  | COMPLETE
  | ERROR
deriving DecidableEq

/-- the `type` field of a LogEntry: 'info' | 'sys' | 'success' | 'warn' | 'error' -/
inductive Severity
  | info
  | sys
  | success
  | warn
  | error
deriving DecidableEq

structure LogEntry where
  time : String
  msg : String
  type : Severity
deriving DecidableEq

inductive ConnectorMode
  | API
  | UPLOAD
  | CRAWL
deriving DecidableEq

structure Connector where
  id : String
  label : String
  domain : String
  mode : ConnectorMode
  compliant : Bool
deriving DecidableEq

inductive JobStatus
  | QUEUED
  | RUNNING
  | COMPLETED
  | ERRORED
deriving DecidableEq

structure JobRecord where
  id : String
  source : String
  status : JobStatus
  artifacts : Nat
  updatedAt : String
deriving DecidableEq

/- ===== Clock / log formatter ===== -/

def pad2 (n : Nat) : String :=
  if n < 10 then "0" ++ toString n else toString n

def pad3 (n : Nat) : String :=
  if n < 10 then "00" ++ toString n
  else if n < 100 then "0" ++ toString n
  else toString n

/-- formatTime: the time-of-day part of toISOString with the trailing Z cut
off, computed from an epoch-millisecond clock reading. -/
def formatTime (nowMs : Int) : String :=
  let ms := (nowMs % 86400000).toNat
  pad2 (ms / 3600000) ++ ":" ++ pad2 (ms / 60000 % 60) ++ ":" ++
    pad2 (ms / 1000 % 60) ++ "." ++ pad3 (ms % 1000)

/- ===== encodeURIComponent (JS builtin used for the avatar URL) ===== -/

def uriHexDigit (n : Nat) : Char :=
  if n < 10 then Char.ofNat (48 + n) else Char.ofNat (55 + n)

def percentEncodeByte (b : UInt8) : String :=
  String.mk ['%', uriHexDigit (b.toNat / 16), uriHexDigit (b.toNat % 16)]

/-- characters encodeURIComponent leaves as-is: A-Z a-z 0-9 - _ . ! ~ * ( )
and the apostrophe (code 39). -/
def uriUnreservedChar (c : Char) : Bool :=
  c.isAlphanum || c == '-' || c == '_' || c == '.' || c == '!' || c == '~' ||
    c == '*' || c == Char.ofNat 39 || c == '(' || c == ')'

def encodeURIComponent (s : String) : String :=
  String.join (s.data.map (fun c =>
    if uriUnreservedChar c then String.singleton c
    else String.join ((String.utf8EncodeChar c).map percentEncodeByte)))

/-- the JS String.prototype.trim builtin: strip whitespace from both ends. -/
def jsTrim (s : String) : String :=
  String.mk (((s.data.dropWhile Char.isWhitespace).reverse.dropWhile Char.isWhitespace).reverse)

/- ===== Synthetic profile generator (buildMockProfile) ===== -/

/-- one run's worth of nondeterministic inputs: crypto.randomUUID and the
four successive Math.random() draws, each a rational in [0, 1). -/
structure Entropy where
  uuid : String
  r1 : Rat
  r2 : Rat
  r3 : Rat
  r4 : Rat
deriving DecidableEq

/-- buildMockProfile from the App module; `now` is the epoch-millisecond
reading of `new Date()`, Date truncation of fractional milliseconds is
modelled by floor. -/
def buildMockProfile (username : String) (now : Int) (e : Entropy) : TargetProfile :=
  { id := e.uuid
    username := username
    platform := Platform.SNAPCHAT
    status := AccountStatus.PUBLIC
    metadata :=
      { realName := some "Unknown Subject"
        accountCreated := now - (e.r1 * 31536000000).floor
        lastActive := now - (e.r2 * 86400000).floor
        score := some (e.r3 * 500000).floor.toNat
        avatarUrl :=
          some ("https://api.dicebear.com/9.x/thumbs/svg?seed=" ++
            encodeURIComponent username) }
    security :=
      { encryptionLevel := EncryptionLevel.AES256
        meoContainer := MeoContainerState.LOCKED
        twoFactorAuth := decide ((7 : Rat) / 20 < e.r4) } }

/- ===== Static reference tables (module-scope constants) ===== -/

def connectors : List Connector :=
  [ { id := "wikimedia", label := "Wikimedia Commons", domain := "commons.wikimedia.org",
      mode := ConnectorMode.API, compliant := true }
  , { id := "inaturalist", label := "iNaturalist", domain := "api.inaturalist.org",
      mode := ConnectorMode.API, compliant := true }
  , { id := "uploads", label := "Secure Uploads", domain := "uploads.swipeyy.internal",
      mode := ConnectorMode.UPLOAD, compliant := true }
  , { id := "custom", label := "Custom Connector Slot", domain := "pending",
      mode := ConnectorMode.CRAWL, compliant := false } ]

def jobQueue : List JobRecord :=
  [ { id := "JOB-2041", source := "Wikimedia", status := JobStatus.COMPLETED,
      artifacts := 24, updatedAt := "08:11:20Z" }
  , { id := "JOB-2042", source := "iNaturalist", status := JobStatus.RUNNING,
      artifacts := 7, updatedAt := "08:11:38Z" }
  , { id := "JOB-2043", source := "Uploads", status := JobStatus.QUEUED,
      artifacts := 0, updatedAt := "08:12:03Z" }
  , { id := "JOB-2044", source := "Custom", status := JobStatus.ERRORED,
      artifacts := 0, updatedAt := "08:12:30Z" } ]

/- ===== Metrics projector ===== -/

inductive MetricValue
  | num (n : Nat)
  | str (s : String)
deriving DecidableEq

structure MetricCard where
  label : String
  value : MetricValue
  hint : String
deriving DecidableEq

/-- the metrics useMemo, generalised over the two reference tables it reads
(module-scope constants in the source) and the encryptedDetections counter. -/
def metricsOf (cs : List Connector) (js : List JobRecord)
    (encryptedDetections : Nat) : List MetricCard :=
  [ { label := "Allowed Connectors"
      value := MetricValue.num (cs.filter (fun c => c.compliant)).length
      hint := "Guardrails enforced" }
  , { label := "Active Jobs"
      value := MetricValue.num (js.filter (fun j =>
        decide (j.status = JobStatus.RUNNING) || decide (j.status = JobStatus.QUEUED))).length
      hint := "Queue visibility" }
  , { label := "Encrypted Containers Flagged"
      value := MetricValue.num encryptedDetections
      hint := "MEO stays sealed" }
  , { label := "Simulated Uptime"
      value := MetricValue.str "99.97%"
      hint := "All core services online" } ]

def metrics (encryptedDetections : Nat) : List MetricCard :=
  metricsOf connectors jobQueue encryptedDetections

/- ===== Session state and the recon state machine ===== -/

/-- the App component's useState hooks, gathered into one record. -/
structure SessionState where
  query : String
  status : ReconStatus
  logs : List LogEntry
  targetData : Option TargetProfile
  errorMessage : String
  encryptedDetections : Nat
deriving DecidableEq

def initialState : SessionState :=
  { query := ""
    status := ReconStatus.IDLE
    logs := []
    targetData := none
    errorMessage := ""
    encryptedDetections := 0 }

def addLog (t : String) (message : String) (ty : Severity) (s : SessionState) : SessionState :=
  { s with logs := s.logs ++ [{ time := t, msg := message, type := ty }] }

def clearSession (s : SessionState) : SessionState :=
  { s with logs := [], targetData := none, errorMessage := "", status := ReconStatus.IDLE }

def setQueryOp (q : String) (s : SessionState) : SessionState :=
  { s with query := q }

/-- environment of one executeRecon run: the clock reading at the i-th addLog
call of the run, the clock reading inside buildMockProfile, and the run's
random draws. -/
structure Env where
  clock : Nat → Int
  now : Int
  entropy : Entropy

/-- the part of executeRecon before the first await: clearSession, status to
CONNECTING, the initial sys log.  `q` is the query captured by the closure. -/
def seg0 (env : Env) (q : String) (s : SessionState) : SessionState :=
  addLog (formatTime (env.clock 0)) ("Initializing network socket for " ++ q ++ "...")
    Severity.sys { clearSession s with status := ReconStatus.CONNECTING }

/-- the callback after the first 500 ms delay: TLS log, then status to
FETCHING_HEADERS. -/
def seg1 (env : Env) (s : SessionState) : SessionState :=
  { addLog (formatTime (env.clock 1)) "TLS handshake complete." Severity.info s with
      status := ReconStatus.FETCHING_HEADERS }

/-- the callback after the second 500 ms delay: the unconditional 200 OK
success log, then the length check; a short query throws, which the catch
turns into the ERROR status, the error message, and the FATAL log. -/
def seg2 (env : Env) (q : String) (s : SessionState) : SessionState :=
  let s := addLog (formatTime (env.clock 2)) ("GET /api/v1/profile/" ++ q ++ " -> 200 OK")
    Severity.success s
  if q.length < 3 then
    addLog (formatTime (env.clock 3)) "FATAL: Username too short (HTTP 400)" Severity.error
      { s with status := ReconStatus.ERROR, errorMessage := "Username too short (HTTP 400)" }
  else
    addLog (formatTime (env.clock 3)) "Streaming JSON payload..." Severity.info
      { s with status := ReconStatus.PARSING_JSON }

/-- the callback after the 600 ms delay: profile attached, counter bumped,
status COMPLETE, final success and warn logs. -/
def seg3 (env : Env) (q : String) (s : SessionState) : SessionState :=
  let s := { s with targetData := some (buildMockProfile q env.now env.entropy)
                    encryptedDetections := s.encryptedDetections + 1
                    status := ReconStatus.COMPLETE }
  let s := addLog (formatTime (env.clock 4)) "Data object materialized." Severity.success s
  addLog (formatTime (env.clock 5))
    "MEO container detected: AES-256 encrypted. No access without device key." Severity.warn s

/-- executeRecon up to its first await: the immediately produced state and
the list of timer callbacks still pending, in firing order.  An empty-trim
query returns early with only the error message set and nothing scheduled. -/
def startRecon (env : Env) (q : String) (s : SessionState) :
    SessionState × List (SessionState → SessionState) :=
  if jsTrim q = "" then
    ({ s with errorMessage := "Enter a username to start reconnaissance." }, [])
  else
    (seg0 env q s,
      if q.length < 3 then [seg1 env, seg2 env q]
      else [seg1 env, seg2 env q, seg3 env q])

def applySegs (segs : List (SessionState → SessionState)) (s : SessionState) : SessionState :=
  segs.foldl (fun st f => f st) s

/-- a whole executeRecon run left to completion: every pending callback fires
in order with nothing interleaved. -/
def executeRecon (env : Env) (q : String) (s : SessionState) : SessionState :=
  applySegs (startRecon env q s).2 (startRecon env q s).1

/-- the RUN button's disabled predicate. -/
def runDisabled (s : SessionState) : Bool :=
  decide (s.status = ReconStatus.CONNECTING) ||
    decide (s.status = ReconStatus.FETCHING_HEADERS) ||
    decide (s.status = ReconStatus.PARSING_JSON)

/-- a click on the RUN button: a disabled button fires no handler, otherwise
executeRecon starts on the current query. -/
def startClick (env : Env) (s : SessionState) :
    SessionState × List (SessionState → SessionState) :=
  if runDisabled s then (s, []) else startRecon env s.query s

/- ===== Reachability over the embedded operations ===== -/

/-- states reachable from the initial render through the embedded operations:
query edits, session clears, the empty-query early return, and the firing of
any run's callbacks — in any order, which over-approximates the real timer
interleavings (including stale callbacks surviving a clear). -/
inductive Reachable : SessionState → Prop
  | init : Reachable initialState
  | edit : ∀ {s : SessionState} (q : String), Reachable s → Reachable (setQueryOp q s)
  | clear : ∀ {s : SessionState}, Reachable s → Reachable (clearSession s)
  | emptyErr : ∀ {s : SessionState}, Reachable s →
      Reachable { s with errorMessage := "Enter a username to start reconnaissance." }
  | fire0 : ∀ {s : SessionState} (env : Env) (q : String), Reachable s → Reachable (seg0 env q s)
  | fire1 : ∀ {s : SessionState} (env : Env), Reachable s → Reachable (seg1 env s)
  | fire2 : ∀ {s : SessionState} (env : Env) (q : String), Reachable s → Reachable (seg2 env q s)
  | fire3 : ∀ {s : SessionState} (env : Env) (q : String), Reachable s → Reachable (seg3 env q s)

/- ===== concrete environment for witnesses and counterexamples ===== -/

def entropy0 : Entropy := { uuid := "", r1 := 0, r2 := 0, r3 := 0, r4 := 0 }

def env0 : Env := { clock := fun _ => 0, now := 0, entropy := entropy0 }

/- ===== helper lemmas ===== -/

theorem seg0_targetData (env : Env) (q : String) (s : SessionState) :
    (seg0 env q s).targetData = none := rfl

theorem seg1_targetData (env : Env) (s : SessionState) :
    (seg1 env s).targetData = s.targetData := rfl

theorem seg2_targetData (env : Env) (q : String) (s : SessionState) :
    (seg2 env q s).targetData = s.targetData := by
  by_cases h : q.length < 3 <;> simp [seg2, addLog, h]

theorem seg3_targetData (env : Env) (q : String) (s : SessionState) :
    (seg3 env q s).targetData = some (buildMockProfile q env.now env.entropy) := rfl

/- ===== claims ===== -/

/-- C1 (amended): for every query of length < 3 whose trimmed form is
nonempty, the completed run ends in phase ERROR with no profile and error
message "Username too short (HTTP 400)", and the log sequence is exactly the
four entries [sys, info, success, error] bearing the connecting, TLS, 200 OK
and FATAL literal texts — the unconditional 200 OK success entry precedes the
length check, so the sequence is four entries, not three. -/
theorem c1_short_query_run (env : Env) (s : SessionState) (q : String)
    (hq : jsTrim q ≠ "") (hlen : q.length < 3) :
    (executeRecon env q s).status = ReconStatus.ERROR ∧
    (executeRecon env q s).targetData = none ∧
    (executeRecon env q s).errorMessage = "Username too short (HTTP 400)" ∧
    (executeRecon env q s).logs.map (fun l => (l.msg, l.type)) =
      [("Initializing network socket for " ++ q ++ "...", Severity.sys),
       ("TLS handshake complete.", Severity.info),
       ("GET /api/v1/profile/" ++ q ++ " -> 200 OK", Severity.success),
       ("FATAL: Username too short (HTTP 400)", Severity.error)] := by
  refine ⟨?_, ?_, ?_, ?_⟩ <;>
    simp [executeRecon, startRecon, applySegs, seg0, seg1, seg2, addLog, clearSession, hq, hlen]

/-- C1 counterexample: the run for "ab" produces four log entries with
severities [sys, info, success, error], not the three entries the claim
states. -/
theorem c1_counterexample :
    (executeRecon env0 "ab" initialState).logs.map (fun l => l.type) =
      [Severity.sys, Severity.info, Severity.success, Severity.error] ∧
    ¬ (executeRecon env0 "ab" initialState).logs.length = 3 := by decide

/-- C1 witness: the amended theorem applied at the concrete query "ab". -/
theorem c1_witness :
    (executeRecon env0 "ab" initialState).status = ReconStatus.ERROR ∧
    (executeRecon env0 "ab" initialState).errorMessage = "Username too short (HTTP 400)" :=
  ⟨(c1_short_query_run env0 initialState "ab" (by decide) (by decide)).1,
   (c1_short_query_run env0 initialState "ab" (by decide) (by decide)).2.2.1⟩

/-- C2 (code bug evidence): starting "x" and then clearing the session before
the pending timer callbacks fire does reset status, logs and profile, but the
stale callbacks are not cancelled — once the originally scheduled delays
elapse they append three further log entries and drive the phase to ERROR,
mutating SessionState after the reset. -/
theorem c2_stale_callbacks_survive_reset :
    (clearSession (startRecon env0 "x" initialState).1).status = ReconStatus.IDLE ∧
    (clearSession (startRecon env0 "x" initialState).1).logs = [] ∧
    (clearSession (startRecon env0 "x" initialState).1).targetData = none ∧
    (applySegs (startRecon env0 "x" initialState).2
      (clearSession (startRecon env0 "x" initialState).1)).logs.length = 3 ∧
    (applySegs (startRecon env0 "x" initialState).2
      (clearSession (startRecon env0 "x" initialState).1)).status = ReconStatus.ERROR := by
  decide

/-- C3: while the phase is CONNECTING, FETCHING_HEADERS or PARSING_JSON the
RUN button is disabled, so a click is consistently a no-op: the state is
unchanged and no callbacks are scheduled, hence no second timeline starts. -/
theorem c3_busy_click_is_noop (env : Env) (s : SessionState)
    (h : s.status = ReconStatus.CONNECTING ∨ s.status = ReconStatus.FETCHING_HEADERS ∨
      s.status = ReconStatus.PARSING_JSON) :
    startClick env s = (s, []) := by
  rcases h with h | h | h <;> simp [startClick, runDisabled, h]

/-- C3 witness: a click while CONNECTING changes nothing. -/
theorem c3_witness :
    startClick env0 { initialState with status := ReconStatus.CONNECTING } =
      ({ initialState with status := ReconStatus.CONNECTING }, []) :=
  c3_busy_click_is_noop env0 { initialState with status := ReconStatus.CONNECTING }
    (Or.inl rfl)

/-- C4 (amended): for every query of length at least 3 with nonempty trimmed
form, the completed run ends in COMPLETE with the generated profile attached,
its username equals the query and its sealed container state is LOCKED, and
the log sequence has the severities [sys, info, success, info, success,
warn] — six entries, not the five the claim counts. -/
theorem c4_long_query_run (env : Env) (s : SessionState) (q : String)
    (hq : jsTrim q ≠ "") (hlen : 3 ≤ q.length) :
    (executeRecon env q s).status = ReconStatus.COMPLETE ∧
    (executeRecon env q s).targetData = some (buildMockProfile q env.now env.entropy) ∧
    (buildMockProfile q env.now env.entropy).username = q ∧
    (buildMockProfile q env.now env.entropy).security.meoContainer = MeoContainerState.LOCKED ∧
    (executeRecon env q s).logs.map (fun l => l.type) =
      [Severity.sys, Severity.info, Severity.success,
       Severity.info, Severity.success, Severity.warn] ∧
    (executeRecon env q s).logs.length = 6 := by
  have hnlt : ¬ q.length < 3 := Nat.not_lt.mpr hlen
  refine ⟨?_, ?_, rfl, rfl, ?_, ?_⟩ <;>
    simp [executeRecon, startRecon, applySegs, seg0, seg1, seg2, seg3, addLog, clearSession,
      hq, hnlt]

/-- C4 counterexample: the completed run for "alice" has six log entries, not
the count of five the claim states. -/
theorem c4_counterexample :
    (executeRecon env0 "alice" initialState).logs.length = 6 ∧
    ¬ (executeRecon env0 "alice" initialState).logs.length = 5 := by decide

/-- C4 witness: the amended theorem applied at the concrete query "alice". -/
theorem c4_witness :
    (executeRecon env0 "alice" initialState).status = ReconStatus.COMPLETE ∧
    (buildMockProfile "alice" env0.now env0.entropy).username = "alice" :=
  ⟨(c4_long_query_run env0 initialState "alice" (by decide) (by decide)).1,
   (c4_long_query_run env0 initialState "alice" (by decide) (by decide)).2.2.1⟩

/-- C5: a query whose trimmed form is empty is rejected immediately: nothing
is scheduled, the phase, logs, profile and counter are untouched, and only
the empty-query error message is surfaced. -/
theorem c5_empty_query_rejected (env : Env) (s : SessionState) (q : String)
    (h : jsTrim q = "") :
    executeRecon env q s = { s with errorMessage := "Enter a username to start reconnaissance." } ∧
    (startRecon env q s).2 = [] ∧
    (executeRecon env q s).status = s.status ∧
    (executeRecon env q s).logs = s.logs ∧
    (executeRecon env q s).targetData = s.targetData ∧
    (executeRecon env q s).encryptedDetections = s.encryptedDetections := by
  refine ⟨?_, ?_, ?_, ?_, ?_, ?_⟩ <;> simp [executeRecon, startRecon, applySegs, h]

/-- C5 witness: the theorem applied at the whitespace-only query. -/
theorem c5_witness :
    executeRecon env0 " " initialState =
      { initialState with errorMessage := "Enter a username to start reconnaissance." } :=
  (c5_empty_query_rejected env0 initialState " " (by decide)).1

/-- C6: a completed run bumps the cumulative encryptedDetections counter by
exactly one when it reaches COMPLETE and by zero when it reaches ERROR, and
clearSession resets logs, profile, error and phase while leaving the counter
unchanged. -/
theorem c6_counter_and_reset (env : Env) (s : SessionState) (q : String)
    (hq : jsTrim q ≠ "") :
    (executeRecon env q s).encryptedDetections =
      (if q.length < 3 then s.encryptedDetections else s.encryptedDetections + 1) ∧
    (executeRecon env q s).status =
      (if q.length < 3 then ReconStatus.ERROR else ReconStatus.COMPLETE) ∧
    (clearSession s).encryptedDetections = s.encryptedDetections ∧
    (clearSession s).logs = [] ∧
    (clearSession s).targetData = none ∧
    (clearSession s).errorMessage = "" ∧
    (clearSession s).status = ReconStatus.IDLE := by
  by_cases hlen : q.length < 3 <;>
    refine ⟨?_, ?_, rfl, rfl, rfl, rfl, rfl⟩ <;>
    simp [executeRecon, startRecon, applySegs, seg0, seg1, seg2, seg3, addLog, clearSession,
      hq, hlen]

/-- C6 witness: the theorem applied at "alice" starting from the initial
state: the counter ends at one, and clearSession keeps it. -/
theorem c6_witness :
    (executeRecon env0 "alice" initialState).encryptedDetections = 1 ∧
    (clearSession initialState).encryptedDetections = 0 := by
  have h := c6_counter_and_reset env0 initialState "alice" (by decide)
  have h1 := h.1
  rw [if_neg (by decide : ¬ ("alice".length < 3))] at h1
  exact ⟨h1, h.2.2.1⟩

/-- C7: every profile the generator produces has encryption level AES-256 and
sealed container state LOCKED, and no reachable session state holds a profile
whose sealed container state is EXPOSED. -/
theorem c7_sealed_container_invariant :
    (∀ (u : String) (now : Int) (e : Entropy),
      (buildMockProfile u now e).security.encryptionLevel = EncryptionLevel.AES256 ∧
      (buildMockProfile u now e).security.meoContainer = MeoContainerState.LOCKED) ∧
    (∀ s : SessionState, Reachable s → ∀ p : TargetProfile, s.targetData = some p →
      p.security.meoContainer ≠ MeoContainerState.EXPOSED) := by
  constructor
  · intro u now e
    exact ⟨rfl, rfl⟩
  · intro s hs
    induction hs with
    | init =>
        intro p hp
        simp [initialState] at hp
    | edit q _ ih =>
        intro p hp
        exact ih p hp
    | clear _ ih =>
        intro p hp
        simp [clearSession] at hp
    | emptyErr _ ih =>
        intro p hp
        exact ih p hp
    | fire0 env q _ ih =>
        intro p hp
        rw [seg0_targetData] at hp
        exact absurd hp (by simp)
    | fire1 env _ ih =>
        intro p hp
        rw [seg1_targetData] at hp
        exact ih p hp
    | fire2 env q _ ih =>
        intro p hp
        rw [seg2_targetData] at hp
        exact ih p hp
    | fire3 env q _ ih =>
        intro p hp
        rw [seg3_targetData] at hp
        cases hp
        simp [buildMockProfile]

/-- C7 witness: the invariant applied to the reachable state in which the
final callback of the "alice" run has fired. -/
theorem c7_witness :
    (buildMockProfile "alice" env0.now env0.entropy).security.meoContainer ≠
      MeoContainerState.EXPOSED :=
  c7_sealed_container_invariant.2 (seg3 env0 "alice" initialState)
    (Reachable.fire3 env0 "alice" Reachable.init)
    (buildMockProfile "alice" env0.now env0.entropy) (seg3_targetData env0 "alice" initialState)

/-- C8: the metrics projector counts exactly the compliant connectors and the
RUNNING or QUEUED jobs, is referentially transparent, and on the repository's
static tables yields the values 3, 2, the counter, and "99.97%". -/
theorem c8_metrics_projection (cs : List Connector) (js : List JobRecord) (n : Nat) :
    (metricsOf cs js n).map (fun m => m.value) =
      [MetricValue.num (cs.countP (fun c => c.compliant)),
       MetricValue.num (js.countP (fun j =>
         decide (j.status = JobStatus.RUNNING) || decide (j.status = JobStatus.QUEUED))),
       MetricValue.num n,
       MetricValue.str "99.97%"] ∧
    metricsOf cs js n = metricsOf cs js n ∧
    (metrics 0).map (fun m => m.value) =
      [MetricValue.num 3, MetricValue.num 2, MetricValue.num 0, MetricValue.str "99.97%"] := by
  refine ⟨?_, rfl, by decide⟩
  simp [metricsOf, List.countP_eq_length_filter]

/-- C9: the avatar reference is a function of the username alone — any two
generator calls with the same username agree on it, whatever the clock
reading and random draws. -/
theorem c9_avatar_deterministic (u : String) (n1 n2 : Int) (e1 e2 : Entropy) :
    (buildMockProfile u n1 e1).metadata.avatarUrl =
      (buildMockProfile u n2 e2).metadata.avatarUrl := rfl

/-- C10: the generator pins realName to the non-absent "Unknown Subject",
the platform to SNAPCHAT and the account status to PUBLIC for every input. -/
theorem c10_fixed_identity_fields (u : String) (now : Int) (e : Entropy) :
    (buildMockProfile u now e).metadata.realName = some "Unknown Subject" ∧
    (buildMockProfile u now e).platform = Platform.SNAPCHAT ∧
    (buildMockProfile u now e).status = AccountStatus.PUBLIC :=
  ⟨rfl, rfl, rfl⟩
